import Mathlib

/-!
Shallow embedding of the chanjo coverage pipeline core
(`chanjo/utils.py`, `chanjo/sql/utils.py`, `chanjo/sql/pipeline.py`,
`chanjo/sql/core.py`, `chanjo/sql/models.py`).

Read depths are embedded as lists of rationals (numpy float arrays in the
source); genomic coordinates as integers; database rows as structures.
-/

namespace Chanjo

/-- Embeds `numpy.ndarray.mean` as used in `calculate_values`
(`chanjo/utils.py`).  For an empty array numpy returns the float NaN
(with a RuntimeWarning, not an exception); NaN is embedded as `none`,
while a real mean is `some (sum / length)`. -/
def numpy_mean (read_depths : List ℚ) : Option ℚ :=
  if read_depths.length = 0 then none
  else some (read_depths.sum / (read_depths.length : ℚ))

/-- Embeds `calculate_completeness` (`chanjo/utils.py`, lines 121-146):
count the positions whose read depth is `≥ threshold`, divide by the
total number of positions; the `try/except ZeroDivisionError` guard for
the empty array is embedded as the explicit length-zero branch
returning 0. -/
def calculate_completeness (read_depths : List ℚ) (threshold : ℚ) : ℚ :=
  let base_pair_count := read_depths.length
  if base_pair_count = 0 then 0
  else ((read_depths.filter (fun d => threshold ≤ d)).length : ℚ) / (base_pair_count : ℚ)

/-- Embeds `calculate_values` (`chanjo/utils.py`, lines 166-179):
`(read_depths.mean(), calculate_completeness(read_depths, threshold))`.
The first component is `none` exactly when numpy's mean is NaN
(empty slice). -/
def calculate_values (read_depths : List ℚ) (threshold : ℚ) : Option ℚ × ℚ :=
  (numpy_mean read_depths, calculate_completeness read_depths threshold)

/-- Loop state of `group_intervals` (`chanjo/utils.py`, lines 50-101): the
running combined span `[iStart, iEnd]` and the current group of
`(start, end, interval_id)` tuples. -/
structure GIState where
  iStart : ℤ
  iEnd : ℤ
  group : List (ℤ × ℤ × ℕ)
  deriving Repr, DecidableEq

/-- One iteration of the `for interval in it` loop of `group_intervals`:
widen the interval by `extension`, update the combined end with `max`, and
either close (yield) the current group and start a new one when the combined
span exceeds `threshold`, or append the interval to the current group.
Returns the new state and the yielded group, if any. -/
def giStep (threshold extension : ℤ) (st : GIState) (interval : ℤ × ℤ × ℕ) :
    GIState × Option (List (ℤ × ℤ × ℕ)) :=
  let start := interval.1 - extension
  let stop := interval.2.1 + extension
  let interval_id := interval.2.2
  let iEnd := max st.iEnd stop
  if iEnd - st.iStart > threshold then
    (⟨start, stop, [(start, stop, interval_id)]⟩, some st.group)
  else
    (⟨st.iStart, iEnd, st.group ++ [(start, stop, interval_id)]⟩, none)

/-- The whole loop of `group_intervals`, collecting the yielded groups; the
trailing `yield group` of the source is the `[st.group]` base case. -/
def giLoop (threshold extension : ℤ) :
    List (ℤ × ℤ × ℕ) → GIState → List (List (ℤ × ℤ × ℕ))
  | [], st => [st.group]
  | iv :: rest, st =>
    match giStep threshold extension st iv with
    | (st', some g) => g :: giLoop threshold extension rest st'
    | (st', none) => giLoop threshold extension rest st'

/-- Embeds `group_intervals` (`chanjo/utils.py`, lines 50-101).  The bare
`next(it)` on an empty iterator raises (`StopIteration`, a `RuntimeError`
inside a generator), embedded as `none`; otherwise the first interval seeds
the state — note the source keeps `iStart`/`iEnd` unextended for the first
interval while placing the extended tuple in the group. -/
def group_intervals (intervals : List (ℤ × ℤ × ℕ)) (threshold extension : ℤ) :
    Option (List (List (ℤ × ℤ × ℕ))) :=
  match intervals with
  | [] => none
  | (s, e, interval_id) :: rest =>
    some (giLoop threshold extension rest
      ⟨s, e, [(s - extension, e + extension, interval_id)]⟩)

/-! ### Python string primitives

The hierarchy builder (`chanjo/sql/utils.py`) manipulates Python strings
with `str.split`, `str.replace`, `int` and lexicographic comparison.  These
are embedded as structural functions on the character lists of Lean
strings so that everything evaluates. -/

/-- Embeds Python `str.split(sep)` for a one-character separator:
`"".split(',') == ['']` and separators delimit (possibly empty) fields. -/
def pysplit (sep : Char) : List Char → List (List Char)
  | [] => [[]]
  | c :: cs =>
    match pysplit sep cs with
    | [] => [[c]]
    | field :: fields =>
      if c = sep then [] :: field :: fields
      else (c :: field) :: fields

/-- Embeds Python `str.replace(old, '')` for a one-character `old`:
every occurrence of the character is removed. -/
def pyremove (old : Char) (s : List Char) : List Char :=
  s.filter (fun c => c ≠ old)

/-- Embeds Python `int(...)` on the decimal digit strings produced by a
well-formed CCDS coordinate pair.  (On malformed text Python raises
`ValueError`, a fatal input error per the import pipeline; the default 0
branch of `Char.toNat - '0'.toNat` is never reached on valid input.) -/
def python_int (digits : List Char) : ℤ :=
  Int.ofNat (digits.foldl (fun acc c => acc * 10 + (c.toNat - '0'.toNat)) 0)

/-- Embeds Python string `<` (lexicographic by code point), used by
`numpy.argsort` over the string columns `gene` and `chromosome`. -/
def pystr_lt_chars : List Char → List Char → Bool
  | [], [] => false
  | [], _ :: _ => true
  | _ :: _, [] => false
  | a :: as, b :: bs =>
    if a.toNat < b.toNat then true
    else if b.toNat < a.toNat then false
    else pystr_lt_chars as bs

/-- Lexicographic string comparison on Lean strings. -/
def pystr_lt (a b : String) : Bool :=
  pystr_lt_chars a.toList b.toList

/-! ### CCDS reference-table rows (`chanjo/sql/utils.py`) -/

/-- One row of the CCDS reference dump, with the column names and order of
`load_ccds` (`chanjo/sql/utils.py`, lines 6-24). -/
structure CCDSRow where
  chromosome : String
  nc_accession : String
  gene : String
  gene_id : ℤ
  ccds_id : String
  ccds_status : String
  cds_strand : String
  cds_from : ℤ
  cds_to : ℤ
  cds_locations : String
  deriving Repr, DecidableEq

/-- The tuple returned by `build_superset`: superset id, contig, start, end,
strand, secondary (gene) id.  `end` is spelled `stop` (reserved word). -/
structure SupersetTuple where
  id : String
  contig : String
  start : ℤ
  stop : ℤ
  strand : String
  secondary_id : ℤ
  deriving Repr, DecidableEq

/-- The tuple returned by `build_set`: set id, contig, start, end, strand. -/
structure SetTuple where
  id : String
  contig : String
  start : ℤ
  stop : ℤ
  strand : String
  deriving Repr, DecidableEq

/-- The tuple returned by `build_interval`: interval id, contig, start, end,
strand. -/
structure IntervalTuple where
  id : String
  contig : String
  start : ℤ
  stop : ℤ
  strand : String
  deriving Repr, DecidableEq

/-- Embeds `parse_raw_intervals` (`chanjo/sql/utils.py`, lines 168-192):
strip the surrounding brackets (`str_list[1:-1]`), remove spaces, split on
commas, split each item on a dash and parse the integers, then decrement
both coordinates of every pair ("correct coords to 0,0-based Pythonic
standard").  A pair with fewer than two components would raise `IndexError`
in the source (fatal input error); the embedding leaves such a list
unchanged, and no claim exercises that case. -/
def parse_raw_intervals (str_list : String) : List (List ℤ) :=
  let csv_intervals := pyremove ' ' ((str_list.toList.drop 1).dropLast)
  let intervals :=
    (pysplit ',' csv_intervals).map (fun item => (pysplit '-' item).map python_int)
  intervals.map (fun interval =>
    match interval with
    | a :: b :: rest => (a - 1) :: (b - 1) :: rest
    | l => l)

/-- Embeds `build_interval` (`chanjo/sql/utils.py`, lines 109-127): the
interval id is `'{}-{}-{}'.format(contig_id, *raw_interval)` and the
coordinates are taken as-is from the (already parsed) pair. -/
def build_interval (raw_interval : List ℤ) (raw_set : CCDSRow) : IntervalTuple :=
  let contig_id := raw_set.chromosome
  let a := raw_interval.headD 0
  let b := (raw_interval.drop 1).headD 0
  { id := s!"{contig_id}-{a}-{b}"
    contig := contig_id
    start := a
    stop := b
    strand := raw_set.cds_strand }

/-- Embeds `build_set` (`chanjo/sql/utils.py`, lines 83-106): the set id is
the CCDS id, prefixed with the contig when the contig is X or Y. -/
def build_set (raw_set : CCDSRow) : SetTuple :=
  let contig_id := raw_set.chromosome
  let base_id := raw_set.ccds_id
  let set_id :=
    if contig_id == "X" || contig_id == "Y" then s!"{contig_id}-{base_id}"
    else base_id
  { id := set_id
    contig := contig_id
    start := raw_set.cds_from
    stop := raw_set.cds_to
    strand := raw_set.cds_strand }

/-- Embeds `build_superset` (`chanjo/sql/utils.py`, lines 54-80): id and
contig/strand/secondary id from the first row (`raw_superset[0]`, an
`IndexError` — embedded as `none` — on an empty group), the id prefixed with
the contig when it is X or Y, start = `min` of the rows' `cds_from`,
end = `max` of the rows' `cds_to`. -/
def build_superset (raw_superset : List CCDSRow) : Option SupersetTuple :=
  match raw_superset with
  | [] => none
  | any_set :: rest =>
    let contig_id := any_set.chromosome
    let gene := any_set.gene
    let superset_id :=
      if contig_id == "X" || contig_id == "Y" then s!"{contig_id}-{gene}"
      else gene
    some
      { id := superset_id
        contig := contig_id
        start := rest.foldl (fun acc r => min acc r.cds_from) any_set.cds_from
        stop := rest.foldl (fun acc r => max acc r.cds_to) any_set.cds_to
        strand := any_set.cds_strand
        secondary_id := any_set.gene_id }

/-- Embeds `process_set` (`chanjo/sql/utils.py`, lines 149-165): build the
set tuple and one interval tuple per parsed coordinate pair of the row's
`cds_locations` string. -/
def process_set (raw_set : CCDSRow) : SetTuple × List IntervalTuple :=
  (build_set raw_set,
   (parse_raw_intervals raw_set.cds_locations).map
     (fun raw_interval => build_interval raw_interval raw_set))

/-- Embeds `process_superset` (`chanjo/sql/utils.py`, lines 130-146). -/
def process_superset (raw_superset : List CCDSRow) :
    Option SupersetTuple × List (SetTuple × List IntervalTuple) :=
  (build_superset raw_superset, raw_superset.map process_set)

/-! ### The importer pipeline (`chanjo/sql/pipeline.py`) -/

/-- Embeds `filter_by_column` (`chanjo/sql/utils.py`, lines 27-38) for a
string-valued column, as used by the pipeline's status filter. -/
def filter_by_column (rows : List CCDSRow) (column : CCDSRow → String)
    (value : String) : List CCDSRow :=
  rows.filter (fun r => column r == value)

/-- Strict lexicographic order on the `('gene', 'chromosome')` sort keys of
`sort_by_columns` (`chanjo/sql/utils.py`, lines 41-51). -/
def ccds_row_lt (a b : CCDSRow) : Bool :=
  pystr_lt a.gene b.gene || (a.gene == b.gene && pystr_lt a.chromosome b.chromosome)

/-- Insertion step of the embedded sort: keep walking past strictly smaller
rows, insert before the first row that is not strictly smaller. -/
def insert_row (a : CCDSRow) : List CCDSRow → List CCDSRow
  | [] => [a]
  | x :: xs => if ccds_row_lt x a then x :: insert_row a xs else a :: x :: xs

/-- Embeds `sort_by_columns(public_sets, ('gene', 'chromosome'))`
(`numpy.argsort` over the two string keys) as a sort ascending in the
lexicographic key order.  This embedding is stable; `numpy.argsort`'s
default kind leaves the order of rows equal in both keys unspecified, and
no claim depends on that order. -/
def sort_by_gene_chromosome (rows : List CCDSRow) : List CCDSRow :=
  rows.foldr insert_row []

/-- Embeds `itertools.groupby(sorted_sets, lambda x: x['gene'])`: group
maximal runs of consecutive rows sharing the same `gene`. -/
def groupby_gene : List CCDSRow → List (List CCDSRow)
  | [] => []
  | [r] => [[r]]
  | r :: r2 :: rest =>
    match groupby_gene (r2 :: rest) with
    | [] => [[r]]
    | g :: gs =>
      if r.gene == r2.gene then (r :: g) :: gs else [r] :: g :: gs

/-- The superset records emitted by `import_from_ccds`
(`chanjo/sql/pipeline.py`, lines 13-43): filter the rows to status
`'Public'`, sort by `('gene', 'chromosome')`, group by `gene` only, and
build one superset per group. -/
def import_from_ccds_supersets (all_sets : List CCDSRow) :
    List (Option SupersetTuple) :=
  let public_sets := filter_by_column all_sets CCDSRow.ccds_status "Public"
  let sorted_sets := sort_by_gene_chromosome public_sets
  let raw_supersets := groupby_gene sorted_sets
  raw_supersets.map build_superset

/-- Session state threaded through the interval loop of `import_from_ccds`
(`chanjo/sql/pipeline.py`, lines 36-82): the `added_intervals` lookup of
already-created interval ids, the interval records added to the session,
and the `interval__set` association rows created by
`new_interval.sets.append(new_set)`.  (The `first`/`last` flags of the
source loop are not modelled; no claim concerns them.) -/
structure ImportState where
  added_intervals : List String
  intervals : List IntervalTuple
  interval_set_links : List (String × String)
  deriving Repr, DecidableEq

/-- Embeds the `for interval_data in intervals` loop of `import_from_ccds`:
an interval id not yet in `added_intervals` is created, linked to the
current set and marked as added; an id already present is skipped entirely
— in the source the `new_interval.sets.append(new_set)` call sits inside
the `if interval_data[0] not in added_intervals` branch, so no link to the
current set is created for a deduplicated interval. -/
def import_intervals (set_id : String) (intervals : List IntervalTuple)
    (st : ImportState) : ImportState :=
  intervals.foldl
    (fun st interval_data =>
      if st.added_intervals.contains interval_data.id then st
      else
        { added_intervals := st.added_intervals ++ [interval_data.id]
          intervals := st.intervals ++ [interval_data]
          interval_set_links := st.interval_set_links ++ [(interval_data.id, set_id)] })
    st

/-- Embeds the `for set_data, intervals in sets_and_intervals` loop of
`import_from_ccds` restricted to the interval bookkeeping: each set's
intervals are imported in turn against the shared session state. -/
def import_sets (sets : List (SetTuple × List IntervalTuple))
    (st : ImportState) : ImportState :=
  sets.foldl (fun st p => import_intervals p.1.id p.2 st) st

/-! ### Statistic rollups (`chanjo/sql/core.py`) -/

/-- A persisted `Interval` row as consumed by `set_stats`. -/
structure IntervalRow where
  id : String
  start : ℤ
  stop : ℤ
  deriving Repr, DecidableEq

/-- A persisted `IntervalData` row (`chanjo/sql/models.py`): per-sample
coverage and completeness of one interval. -/
structure IntervalDataRow where
  parent_id : String
  sample_id : String
  coverage : ℚ
  completeness : ℚ
  deriving Repr, DecidableEq

/-- A persisted `Set` row as consumed by `superset_stats`: its id, parent
superset id, and span (the span is carried only to show it plays no role
in the rollup). -/
structure SetRow where
  id : String
  superset_id : String
  start : ℤ
  stop : ℤ
  deriving Repr, DecidableEq

/-- A persisted `SetData` row: per-sample coverage and completeness of one
set. -/
structure SetDataRow where
  parent_id : String
  sample_id : String
  coverage : ℚ
  completeness : ℚ
  deriving Repr, DecidableEq

/-- `Interval.end - Interval.start + 1`: the interval length used by
`set_stats` (`chanjo/sql/core.py`, line 228) and `Interval.__len__`
(`chanjo/sql/models.py`, lines 156-163). -/
def interval_length (iv : IntervalRow) : ℚ :=
  ((iv.stop - iv.start + 1 : ℤ) : ℚ)

/-- The row set of the `set_stats` query (`chanjo/sql/core.py`,
lines 212-256) for one set: `interval__set` association rows joined to
`Interval` on the interval id and to `IntervalData` on the parent id,
filtered by sample. -/
def set_stats_rows (intervals : List IntervalRow)
    (interval_data : List IntervalDataRow) (links : List (String × String))
    (sample_id set_id : String) : List (IntervalRow × IntervalDataRow) :=
  links.flatMap (fun link =>
    if link.2 == set_id then
      (intervals.filter (fun iv => iv.id == link.1)).flatMap (fun iv =>
        (interval_data.filter
            (fun d => d.parent_id == iv.id && d.sample_id == sample_id)).map
          (fun d => (iv, d)))
    else [])

/-- Embeds the aggregates of `set_stats`: `sum(length * coverage)`,
`sum(length * completeness)` and `sum(length)` over the joined rows of one
set, the weighted sums divided by the total length (the result row of the
grouped query for that set). -/
def set_stats (intervals : List IntervalRow)
    (interval_data : List IntervalDataRow) (links : List (String × String))
    (sample_id set_id : String) : ℚ × ℚ :=
  let rows := set_stats_rows intervals interval_data links sample_id set_id
  let sums :=
    rows.foldl
      (fun acc r =>
        (acc.1 + interval_length r.1,
         acc.2.1 + interval_length r.1 * r.2.coverage,
         acc.2.2 + interval_length r.1 * r.2.completeness))
      ((0 : ℚ), (0 : ℚ), (0 : ℚ))
  (sums.2.1 / sums.1, sums.2.2 / sums.1)

/-- The row set of the `superset_stats` query (`chanjo/sql/core.py`,
lines 258-280) for one superset: `Set` rows of the superset joined to
`SetData` on the parent id, filtered by sample. -/
def superset_stats_rows (sets : List SetRow) (set_data : List SetDataRow)
    (sample_id superset_id : String) : List SetDataRow :=
  sets.flatMap (fun s =>
    if s.superset_id == superset_id then
      set_data.filter (fun d => d.parent_id == s.id && d.sample_id == sample_id)
    else [])

/-- Embeds the aggregates of `superset_stats`: `avg(SetData.coverage)` and
`avg(SetData.completeness)` over the rows of one superset (SQL `avg` =
sum / count); the set spans never enter the computation. -/
def superset_stats (sets : List SetRow) (set_data : List SetDataRow)
    (sample_id superset_id : String) : ℚ × ℚ :=
  let rows := superset_stats_rows sets set_data sample_id superset_id
  let n : ℚ := (rows.length : ℚ)
  let sums := rows.foldl (fun acc d => (acc.1 + d.coverage, acc.2 + d.completeness))
    ((0 : ℚ), (0 : ℚ))
  (sums.1 / n, sums.2 / n)

/-! ### Spec-side definitions (stated from the specification's words, to be
compared with the code-side definitions above) -/

/-- Spec-side: the length-weighted mean `Σ(length × value) / Σ(length)` over
a list of (length, value) pairs (spec §4.4, leaf → mid-level rollup). -/
def length_weighted_mean (pairs : List (ℚ × ℚ)) : ℚ :=
  (pairs.map (fun p => p.1 * p.2)).sum / (pairs.map Prod.fst).sum

/-- Spec-side: the unweighted arithmetic mean (spec §4.4, mid-level →
top-level rollup). -/
def unweighted_mean (values : List ℚ) : ℚ :=
  values.sum / (values.length : ℚ)

/-- Spec-side: re-derive a top-level span as the min of the mid-level
features' starts and the max of their ends (spec §8, round-trip property);
`none` when there are no mid-level features. -/
def respan_from_sets (sets : List SetTuple) : Option (ℤ × ℤ) :=
  match sets with
  | [] => none
  | s :: rest =>
    some (rest.foldl (fun acc x => min acc x.start) s.start,
          rest.foldl (fun acc x => max acc x.stop) s.stop)

/-! ### Concrete fixtures used by counterexamples and witnesses -/

/-- A CCDS row on an autosomal contig whose `cds_locations` string is the
spec's example `[100-200, 300-400]`. -/
def row_parse : CCDSRow :=
  { chromosome := "1", nc_accession := "NC_1", gene := "G1", gene_id := 101
    ccds_id := "CCDS1.1", ccds_status := "Public", cds_strand := "+"
    cds_from := 99, cds_to := 399, cds_locations := "[100-200, 300-400]" }

/-- First of two rows of one gene sharing the leaf pair 100-200. -/
def row_shared_1 : CCDSRow :=
  { chromosome := "1", nc_accession := "NC_1", gene := "G2", gene_id := 102
    ccds_id := "CCDS1.1", ccds_status := "Public", cds_strand := "+"
    cds_from := 99, cds_to := 399, cds_locations := "[100-200, 300-400]" }

/-- Second of two rows of one gene sharing the leaf pair 100-200 with
`row_shared_1` under a different set id. -/
def row_shared_2 : CCDSRow :=
  { chromosome := "1", nc_accession := "NC_1", gene := "G2", gene_id := 102
    ccds_id := "CCDS2.1", ccds_status := "Public", cds_strand := "+"
    cds_from := 99, cds_to := 599, cds_locations := "[100-200, 500-600]" }

/-- A `'Public'` row of gene TRO on the sex contig X. -/
def row_sex_X : CCDSRow :=
  { chromosome := "X", nc_accession := "NC_X", gene := "TRO", gene_id := 7216
    ccds_id := "CCDSX.1", ccds_status := "Public", cds_strand := "+"
    cds_from := 100, cds_to := 200, cds_locations := "[100-200]" }

/-- A `'Public'` row of the same gene TRO on the sex contig Y. -/
def row_sex_Y : CCDSRow :=
  { chromosome := "Y", nc_accession := "NC_Y", gene := "TRO", gene_id := 7216
    ccds_id := "CCDSY.1", ccds_status := "Public", cds_strand := "+"
    cds_from := 300, cds_to := 400, cds_locations := "[300-400]" }

/-- A second row of gene TRO on X, for the span round-trip witness. -/
def row_sex_X2 : CCDSRow :=
  { chromosome := "X", nc_accession := "NC_X", gene := "TRO", gene_id := 7216
    ccds_id := "CCDSX.2", ccds_status := "Public", cds_strand := "+"
    cds_from := 50, cds_to := 150, cds_locations := "[50-150]" }

end Chanjo

/-- Helper: the loop of `group_intervals` always yields at least the final
group. -/
theorem Chanjo.giLoop_ne_nil (threshold extension : ℤ) :
    ∀ (intervals : List (ℤ × ℤ × ℕ)) (st : Chanjo.GIState),
      Chanjo.giLoop threshold extension intervals st ≠ [] := by
  intro l
  induction l with
  | nil => intro st; simp [Chanjo.giLoop]
  | cons iv rest ih =>
    intro st
    rcases hstep : Chanjo.giStep threshold extension st iv with ⟨st', og⟩
    cases og with
    | none => simpa [Chanjo.giLoop, hstep] using ih st'
    | some g => simp [Chanjo.giLoop, hstep]

/-- C1 counterexample: on the empty depth slice `calculate_values` does not
return the pair (0, 0): the coverage component is numpy's NaN (embedded as
`none`), not 0. -/
theorem C1_counterexample :
    Chanjo.calculate_values [] 0 ≠ (some (0 : ℚ), (0 : ℚ)) := by
  decide

/-- C1 (amended): for every cutoff, applying the Depth Reducer's
`calculate_values` to an empty read-depth array yields completeness 0 without
any division-by-zero fault, but the coverage component is NaN (numpy's mean
of an empty slice, embedded as `none`) rather than 0. -/
theorem C1_empty_slice_amended (threshold : ℚ) :
    Chanjo.calculate_values [] threshold = (none, 0) := by
  rfl

/-- C8: for every non-empty read-depth array of non-negative depths the
completeness at cutoff 0 is exactly 1, and for every array and every cutoff
the completeness returned by `calculate_completeness` lies in [0, 1]. -/
theorem C8_completeness_bounds :
    (∀ read_depths : List ℚ, read_depths ≠ [] → (∀ d ∈ read_depths, 0 ≤ d) →
      Chanjo.calculate_completeness read_depths 0 = 1) ∧
    (∀ (read_depths : List ℚ) (threshold : ℚ),
      0 ≤ Chanjo.calculate_completeness read_depths threshold ∧
      Chanjo.calculate_completeness read_depths threshold ≤ 1) := by
  constructor
  · intro rd hne hnn
    unfold Chanjo.calculate_completeness
    have hlen : rd.length ≠ 0 := by
      simpa [List.length_eq_zero] using hne
    have hfilter : rd.filter (fun d => decide ((0 : ℚ) ≤ d)) = rd := by
      apply List.filter_eq_self.mpr
      intro d hd
      simpa using hnn d hd
    simp only [hlen, if_neg hlen]
    rw [hfilter]
    have : (rd.length : ℚ) ≠ 0 := by exact_mod_cast hlen
    field_simp
  · intro rd threshold
    unfold Chanjo.calculate_completeness
    by_cases hlen : rd.length = 0
    · simp [hlen]
    · have hpos : (0 : ℚ) < (rd.length : ℚ) := by
        have : 0 < rd.length := Nat.pos_of_ne_zero hlen
        exact_mod_cast this
      constructor
      · rw [if_neg hlen]
        positivity
      · rw [if_neg hlen]
        rw [div_le_one hpos]
        have := List.length_filter_le (fun d => decide (threshold ≤ d)) rd
        exact_mod_cast this

/-- C8 witness: the universally quantified bounds instantiated at a concrete
depth slice. -/
theorem C8_completeness_bounds_witness :
    Chanjo.calculate_completeness [5, 10, 0] 0 = 1 ∧
    (0 ≤ Chanjo.calculate_completeness [5, 10, 0] 10 ∧
      Chanjo.calculate_completeness [5, 10, 0] 10 ≤ 1) :=
  ⟨C8_completeness_bounds.1 [5, 10, 0] (by decide) (by decide),
   C8_completeness_bounds.2 [5, 10, 0] 10⟩

/-- C5: the Interval Batcher appends an interval to the current group (and
yields nothing) exactly when the running combined span stays within the
threshold after adding it, otherwise the current group is yielded and the
interval starts a new group; and on the concrete input
[(5,15),(5,20),(25,30),(30,65),(60,82),(83,88)] with threshold 30 and
extension 0, the yielded groups are
[[(5,15),(5,20),(25,30)], [(30,65)], [(60,82),(83,88)]]. -/
theorem C5_interval_batcher :
    (∀ (threshold extension : ℤ) (st : Chanjo.GIState) (s e : ℤ) (n : ℕ),
      (Chanjo.giStep threshold extension st (s, e, n) =
        (⟨st.iStart, max st.iEnd (e + extension),
          st.group ++ [(s - extension, e + extension, n)]⟩, none) ↔
        max st.iEnd (e + extension) - st.iStart ≤ threshold)) ∧
    Chanjo.group_intervals
        [(5, 15, 1), (5, 20, 2), (25, 30, 3), (30, 65, 4), (60, 82, 5), (83, 88, 6)]
        30 0 =
      some [[(5, 15, 1), (5, 20, 2), (25, 30, 3)],
            [(30, 65, 4)],
            [(60, 82, 5), (83, 88, 6)]] := by
  constructor
  · intro threshold extension st s e n
    by_cases h : max st.iEnd (e + extension) - st.iStart > threshold
    · rw [Chanjo.giStep, if_pos h]
      constructor
      · intro heq
        exact absurd (congrArg Prod.snd heq) (by simp)
      · intro hle
        omega
    · rw [Chanjo.giStep, if_neg h]
      constructor
      · intro _
        omega
      · intro _
        rfl
  · decide

/-- C10: calling the Interval Batcher with an empty interval list raises an
exception before yielding any group (embedded as `none`), and on every input
on which it does not raise it never yields an empty sequence of groups. -/
theorem C10_empty_batcher :
    (∀ threshold extension : ℤ,
      Chanjo.group_intervals [] threshold extension = none) ∧
    (∀ (intervals : List (ℤ × ℤ × ℕ)) (threshold extension : ℤ)
        (gs : List (List (ℤ × ℤ × ℕ))),
      Chanjo.group_intervals intervals threshold extension = some gs → gs ≠ []) := by
  constructor
  · intro threshold extension
    rfl
  · intro intervals threshold extension gs hsome
    cases intervals with
    | nil => simp [Chanjo.group_intervals] at hsome
    | cons iv rest =>
      rcases iv with ⟨s, e, n⟩
      simp only [Chanjo.group_intervals, Option.some.injEq] at hsome
      subst hsome
      exact Chanjo.giLoop_ne_nil threshold extension rest _

/-- C10 witness: the batcher raises on the empty list and yields a non-empty
sequence of groups on a concrete one-interval input. -/
theorem C10_empty_batcher_witness :
    Chanjo.group_intervals [] 30 0 = none ∧
    [[((5 : ℤ), (15 : ℤ), (1 : ℕ))]] ≠ ([] : List (List (ℤ × ℤ × ℕ))) :=
  ⟨C10_empty_batcher.1 30 0,
   C10_empty_batcher.2 [(5, 15, 1)] 30 0 [[(5, 15, 1)]] rfl⟩

/-- C3 code evaluation at the failing input: parsing the leaf-coordinate
string `[100-200, 300-400]` under contig 1 yields interval identifiers
`1-99-199` and `1-299-399` — `parse_raw_intervals` subtracts one from each
bound before `build_interval` formats the identifier — not the
one-based-inclusive identifiers `1-100-200` and `1-300-400` the claim (and
the repository's own `test_parse_raw_intervals`) require. -/
theorem C3_code_eval :
    Chanjo.parse_raw_intervals "[100-200, 300-400]" = [[99, 199], [299, 399]] ∧
    ((Chanjo.process_set Chanjo.row_parse).2.map (fun iv => iv.id)) =
      ["1-99-199", "1-299-399"] ∧
    ["1-99-199", "1-299-399"] ≠ ["1-100-200", "1-300-400"] := by
  decide

/-- C4 code evaluation at the failing input: two `'Public'` rows of the same
gene TRO on the sex contigs X and Y are sorted by (gene, chromosome) but
grouped by gene only, so the pipeline emits a single top-level feature
`X-TRO` spanning both contigs' rows instead of two features `X-TRO` and
`Y-TRO`. -/
theorem C4_code_eval :
    Chanjo.import_from_ccds_supersets [Chanjo.row_sex_X, Chanjo.row_sex_Y] =
      [some { id := "X-TRO", contig := "X", start := 100, stop := 400,
              strand := "+", secondary_id := 7216 }] := by
  decide

/-- C2 code evaluation at the failing input: two sets `CCDS1.1` and
`CCDS2.1` of one gene share the leaf pair 100-200.  The leaf is persisted
once (dedup by identifier), but the `interval__set` link is created only
for the set that first created it: no `(leaf, CCDS2.1)` link exists,
contradicting the claim that the link is created whether the leaf was
freshly created or deduplicated. -/
theorem C2_code_eval :
    ((Chanjo.import_sets
        [Chanjo.process_set Chanjo.row_shared_1, Chanjo.process_set Chanjo.row_shared_2]
        ⟨[], [], []⟩).intervals.map (fun iv => iv.id)) =
      ["1-99-199", "1-299-399", "1-499-599"] ∧
    (Chanjo.import_sets
        [Chanjo.process_set Chanjo.row_shared_1, Chanjo.process_set Chanjo.row_shared_2]
        ⟨[], [], []⟩).interval_set_links =
      [("1-99-199", "CCDS1.1"), ("1-299-399", "CCDS1.1"), ("1-499-599", "CCDS2.1")] ∧
    ("1-99-199", "CCDS2.1") ∉
      (Chanjo.import_sets
        [Chanjo.process_set Chanjo.row_shared_1, Chanjo.process_set Chanjo.row_shared_2]
        ⟨[], [], []⟩).interval_set_links := by
  decide

/-- C9: whenever `build_superset` emits a top-level feature for a group of
reference rows, its start is the minimum of the mid-level features' starts
and its end the maximum of their ends, so re-deriving the span from the
mid-level features built from the same rows reproduces the stored top-level
start/end. -/
theorem C9_superset_span_roundtrip :
    ∀ (rows : List Chanjo.CCDSRow) (ss : Chanjo.SupersetTuple),
      Chanjo.build_superset rows = some ss →
      Chanjo.respan_from_sets (rows.map Chanjo.build_set) = some (ss.start, ss.stop) := by
  intro rows ss h
  cases rows with
  | nil => simp [Chanjo.build_superset] at h
  | cons a rest =>
    simp only [Chanjo.build_superset, Option.some.injEq] at h
    subst h
    simp only [Chanjo.respan_from_sets, List.map_cons]
    rw [List.foldl_map, List.foldl_map]
    rfl

/-- C9 witness: the round trip at a concrete two-row group on contig X. -/
theorem C9_superset_span_roundtrip_witness :
    Chanjo.respan_from_sets
        ([Chanjo.row_sex_X, Chanjo.row_sex_X2].map Chanjo.build_set) =
      some (50, 200) :=
  C9_superset_span_roundtrip [Chanjo.row_sex_X, Chanjo.row_sex_X2]
    { id := "X-TRO", contig := "X", start := 50, stop := 200,
      strand := "+", secondary_id := 7216 }
    (by decide)

/-- Helper: the three running sums of the `set_stats` aggregation, as a
fold, equal the sums of the mapped columns. -/
theorem Chanjo.set_stats_foldl
    (rows : List (Chanjo.IntervalRow × Chanjo.IntervalDataRow)) :
    ∀ a b c : ℚ,
      rows.foldl
        (fun acc r =>
          (acc.1 + Chanjo.interval_length r.1,
           acc.2.1 + Chanjo.interval_length r.1 * r.2.coverage,
           acc.2.2 + Chanjo.interval_length r.1 * r.2.completeness)) (a, b, c) =
      (a + (rows.map (fun r => Chanjo.interval_length r.1)).sum,
       b + (rows.map (fun r => Chanjo.interval_length r.1 * r.2.coverage)).sum,
       c + (rows.map (fun r => Chanjo.interval_length r.1 * r.2.completeness)).sum) := by
  induction rows with
  | nil => intro a b c; simp
  | cons r rs ih =>
    intro a b c
    simp only [List.foldl_cons, List.map_cons, List.sum_cons]
    rw [ih]
    simp only [Prod.mk.injEq]
    exact ⟨by ring, by ring, by ring⟩

/-- C6: the leaf-to-mid-level rollup of `set_stats` is the length-weighted
mean — for every store contents and sample it equals
`Σ(leaf_length × value) / Σ(leaf_length)` over the joined leaves of the
set, with leaf_length = end - start + 1, identically for coverage and
completeness; in particular two leaves of lengths 10 and 90 with coverages
100 and 0 roll up to coverage 10, not 50. -/
theorem C6_set_rollup_weighted :
    (∀ (intervals : List Chanjo.IntervalRow)
        (interval_data : List Chanjo.IntervalDataRow)
        (links : List (String × String)) (sample_id set_id : String),
      Chanjo.set_stats intervals interval_data links sample_id set_id =
        (Chanjo.length_weighted_mean
          ((Chanjo.set_stats_rows intervals interval_data links sample_id set_id).map
            (fun r => (Chanjo.interval_length r.1, r.2.coverage))),
         Chanjo.length_weighted_mean
          ((Chanjo.set_stats_rows intervals interval_data links sample_id set_id).map
            (fun r => (Chanjo.interval_length r.1, r.2.completeness))))) ∧
    Chanjo.set_stats
        [⟨"e1", 1, 10⟩, ⟨"e2", 11, 100⟩]
        [⟨"e1", "sample1", 100, 1⟩, ⟨"e2", "sample1", 0, 1⟩]
        [("e1", "tx1"), ("e2", "tx1")]
        "sample1" "tx1" = (10, 1) ∧
    (10 : ℚ) ≠ 50 := by
  have hgen : ∀ (intervals : List Chanjo.IntervalRow)
      (interval_data : List Chanjo.IntervalDataRow)
      (links : List (String × String)) (sample_id set_id : String),
      Chanjo.set_stats intervals interval_data links sample_id set_id =
        (Chanjo.length_weighted_mean
          ((Chanjo.set_stats_rows intervals interval_data links sample_id set_id).map
            (fun r => (Chanjo.interval_length r.1, r.2.coverage))),
         Chanjo.length_weighted_mean
          ((Chanjo.set_stats_rows intervals interval_data links sample_id set_id).map
            (fun r => (Chanjo.interval_length r.1, r.2.completeness)))) := by
    intro intervals interval_data links sample_id set_id
    simp only [Chanjo.set_stats, Chanjo.length_weighted_mean]
    rw [Chanjo.set_stats_foldl]
    simp only [zero_add, List.map_map]
    rfl
  refine ⟨hgen, ?_, by decide⟩
  rw [hgen]
  have hrows : Chanjo.set_stats_rows
      [⟨"e1", 1, 10⟩, ⟨"e2", 11, 100⟩]
      [⟨"e1", "sample1", 100, 1⟩, ⟨"e2", "sample1", 0, 1⟩]
      [("e1", "tx1"), ("e2", "tx1")]
      "sample1" "tx1" =
      [(⟨"e1", 1, 10⟩, ⟨"e1", "sample1", 100, 1⟩),
       (⟨"e2", 11, 100⟩, ⟨"e2", "sample1", 0, 1⟩)] := by
    decide
  rw [hrows]
  simp only [List.map_cons, List.map_nil, Chanjo.length_weighted_mean,
    Chanjo.interval_length]
  norm_num

/-- Helper: the two running sums of the `superset_stats` aggregation, as a
fold, equal the sums of the mapped columns. -/
theorem Chanjo.superset_stats_foldl (rows : List Chanjo.SetDataRow) :
    ∀ a b : ℚ,
      rows.foldl (fun acc d => (acc.1 + d.coverage, acc.2 + d.completeness)) (a, b) =
      (a + (rows.map (fun d => d.coverage)).sum,
       b + (rows.map (fun d => d.completeness)).sum) := by
  induction rows with
  | nil => intro a b; simp
  | cons r rs ih =>
    intro a b
    simp only [List.foldl_cons, List.map_cons, List.sum_cons]
    rw [ih]
    simp only [Prod.mk.injEq]
    exact ⟨by ring, by ring⟩

/-- C7: the mid-to-top-level rollup of `superset_stats` is the unweighted
arithmetic mean of the mid-level coverage/completeness values under the
same top-level feature and sample — the mid-level spans never enter the
computation; in particular two mid-level features of lengths 10 and 90 with
coverages 10 and 90 roll up to coverage 50. -/
theorem C7_superset_rollup_unweighted :
    (∀ (sets : List Chanjo.SetRow) (set_data : List Chanjo.SetDataRow)
        (sample_id superset_id : String),
      Chanjo.superset_stats sets set_data sample_id superset_id =
        (Chanjo.unweighted_mean
          ((Chanjo.superset_stats_rows sets set_data sample_id superset_id).map
            (fun d => d.coverage)),
         Chanjo.unweighted_mean
          ((Chanjo.superset_stats_rows sets set_data sample_id superset_id).map
            (fun d => d.completeness)))) ∧
    Chanjo.superset_stats
        [⟨"tx1", "g1", 1, 10⟩, ⟨"tx2", "g1", 11, 100⟩]
        [⟨"tx1", "sample1", 10, 1⟩, ⟨"tx2", "sample1", 90, 0⟩]
        "sample1" "g1" = (50, 1/2) := by
  have hgen : ∀ (sets : List Chanjo.SetRow) (set_data : List Chanjo.SetDataRow)
      (sample_id superset_id : String),
      Chanjo.superset_stats sets set_data sample_id superset_id =
        (Chanjo.unweighted_mean
          ((Chanjo.superset_stats_rows sets set_data sample_id superset_id).map
            (fun d => d.coverage)),
         Chanjo.unweighted_mean
          ((Chanjo.superset_stats_rows sets set_data sample_id superset_id).map
            (fun d => d.completeness))) := by
    intro sets set_data sample_id superset_id
    simp only [Chanjo.superset_stats, Chanjo.unweighted_mean]
    rw [Chanjo.superset_stats_foldl]
    simp only [zero_add, List.length_map]
  refine ⟨hgen, ?_⟩
  rw [hgen]
  have hrows : Chanjo.superset_stats_rows
      [⟨"tx1", "g1", 1, 10⟩, ⟨"tx2", "g1", 11, 100⟩]
      [⟨"tx1", "sample1", 10, 1⟩, ⟨"tx2", "sample1", 90, 0⟩]
      "sample1" "g1" =
      [⟨"tx1", "sample1", 10, 1⟩, ⟨"tx2", "sample1", 90, 0⟩] := by
    decide
  rw [hrows]
  simp only [List.map_cons, List.map_nil, Chanjo.unweighted_mean]
  norm_num

/-- C5 witness: the step characterization instantiated at a concrete state
and interval (the second interval of the spec's example joins the group). -/
theorem C5_interval_batcher_witness :
    Chanjo.giStep 30 0 ⟨5, 15, [(5, 15, 1)]⟩ (5, 20, 2) =
      (⟨5, max 15 (20 + 0), [(5, 15, 1)] ++ [(5 - 0, 20 + 0, 2)]⟩, none) :=
  (C5_interval_batcher.1 30 0 ⟨5, 15, [(5, 15, 1)]⟩ 5 20 2).mpr (by decide)
